import Mathlib

/-!
Shallow embedding of the mutwo event model and the ISiS frontend
(mutwo/events/basic/SimpleEvent.py, mutwo/converters/frontends/isis.py),
together with a spec-modelled embedding of the loudness converter whose
source is not part of the excerpt (only its tests are).

Conventions of the embedding:
* Python numbers (durations, tempo, amplitudes) are modelled as `ℚ`;
  the loudness formulas, which are genuinely real-valued, as `ℝ`.
* Duck-typed attribute access is modelled with `Option`: a missing
  attribute is `none`, and an accessor returning `none` models the
  `AttributeError` that Python raises.
* Fallible operations return `Except String α`; the string is the error
  message of the exception the Python code raises.
* The filesystem touched by `convert` is an association list from paths
  to file contents; writing a file conses a `(path, contents)` pair.
-/

namespace Mutwo

/-- Volume value object (external collaborator): `DirectVolume` exposes a
numeric amplitude projection. Only `DirectVolume` occurs in the embedded
fragment. -/
structure DirectVolume where
  amplitude : ℚ
  deriving DecidableEq

/-- Pitch value object (external collaborator): `WesternPitch` is built from
a pitch class name and an octave, e.g. `WesternPitch "c" (-1)` is the
lowest-octave reference pitch. -/
structure WesternPitch where
  pitch_class_name : String
  octave : Int
  deriving DecidableEq

/-- Modelled from the spec: pitch parameter classes are external value
objects exposing an integer MIDI-number projection (`midi_pitch_number`).
The projection itself is out of scope in the source excerpt; it is modelled
as pitch-class offset plus `12 * (octave + 1)`, which sends the lowest
reference `WesternPitch "c" (-1)` to MIDI note number 0. No claim depends
on the concrete numbers, only on the projection existing. -/
def pitch_class_number (name : String) : Int :=
  if name = "c" then 0
  else if name = "d" then 2
  else if name = "e" then 4
  else if name = "f" then 5
  else if name = "g" then 7
  else if name = "a" then 9
  else if name = "b" then 11
  else 0

/-- MIDI-number projection of a pitch (see `pitch_class_number`). -/
def WesternPitch.midi_pitch_number (p : WesternPitch) : Int :=
  pitch_class_number p.pitch_class_name + 12 * (p.octave + 1)

/-- Value that `getattr` can produce on a `SimpleEvent`: the attributes the
embedded fragment uses (duration, pitch_or_pitches, volume, vowel,
consonants). -/
inductive AttrValue where
  | num (q : ℚ)
  | pitches (ps : List WesternPitch)
  | vol (v : DirectVolume)
  | str (s : String)
  | strs (ss : List String)
  deriving DecidableEq

/-- Leaf event (SimpleEvent.py): a duration plus ad-hoc named attributes.
`__init__` only sets the duration (through the `duration` property setter),
so every other attribute starts absent; they are added externally.
The attribute universe is restricted to the names the converter and the
tests touch. -/
structure SimpleEvent where
  duration : ℚ
  pitch_or_pitches : Option (List WesternPitch) := none
  volume : Option DirectVolume := none
  vowel : Option String := none
  consonants : Option (List String) := none
  deriving DecidableEq

/-- Constructor `SimpleEvent(new_duration)`: stores the duration via the
property setter; no other attribute exists yet. -/
def SimpleEvent.new (new_duration : ℚ) : SimpleEvent :=
  { duration := new_duration }

/-- Property setter `duration.setter`: `self._duration = new_duration`. -/
def SimpleEvent.set_duration (e : SimpleEvent) (new_duration : ℚ) : SimpleEvent :=
  { e with duration := new_duration }

/-- Python `getattr(self, parameter_name)`: `some` value when the attribute
exists on the event, `none` models the `AttributeError` raised when it does
not (any name outside the modelled attribute universe is absent). -/
def SimpleEvent.getattr (e : SimpleEvent) (parameter_name : String) : Option AttrValue :=
  if parameter_name = "duration" then some (AttrValue.num e.duration)
  else if parameter_name = "pitch_or_pitches" then (e.pitch_or_pitches).map AttrValue.pitches
  else if parameter_name = "volume" then (e.volume).map AttrValue.vol
  else if parameter_name = "vowel" then (e.vowel).map AttrValue.str
  else if parameter_name = "consonants" then (e.consonants).map AttrValue.strs
  else none

/-- `SimpleEvent.get_parameter`: `try: return (getattr(self, name),)
except AttributeError: return (None,)`. The returned 1-tuple is a
one-element list whose entry is `some` value or the `None` marker. -/
def SimpleEvent.get_parameter (e : SimpleEvent) (parameter_name : String) :
    List (Option AttrValue) :=
  match e.getattr parameter_name with
  | some value => [some value]
  | none => [none]

/-- Extracted data produced per leaf event by the ISiS score converter
(isis.py, `ExtractedData`): duration, consonants, vowel, pitch, volume. -/
structure ExtractedData where
  duration : ℚ
  consonants : List String
  vowel : String
  pitch : WesternPitch
  volume : DirectVolume
  deriving DecidableEq

/-- Events that reach the converter. `ConvertableEvents` in isis.py is
`Union[SimpleEvent, SequentialEvent[SimpleEvent]]`; a `SimultaneousEvent`
may also be handed in (and is rejected). Sequential containers hold leaf
events, matching the `ConvertableEvents` type in the source. -/
inductive Event where
  | simple (e : SimpleEvent)
  | sequential (es : List SimpleEvent)
  | simultaneous (es : List Event)

/-- Filesystem model: association list from paths to written contents;
writing a file conses a pair onto the front. -/
abbrev FileSystem : Type := List (String × String)

/-- ISiS score converter (isis.py, `IsisScoreConverter.__init__`): the four
pluggable accessors, stored in `_extraction_functions` in the order
(consonants, vowel, pitch, volume), plus path, tempo, transposition,
default sentence loudness and the line width `n_events_per_line`.
An accessor returning `none` models it raising `AttributeError`. -/
structure IsisScoreConverter where
  path : String
  simple_event_to_pitch : SimpleEvent → Option WesternPitch
  simple_event_to_volume : SimpleEvent → Option DirectVolume
  simple_event_to_vowel : SimpleEvent → Option String
  simple_event_to_consonants : SimpleEvent → Option (List String)
  tempo : ℚ
  global_transposition : Int
  default_sentence_loudness : Option ℚ
  n_events_per_line : Nat

/-- Default accessor `lambda simple_event: simple_event.pitch_or_pitches[0]`.
Python raises `AttributeError` when the attribute is missing and
`IndexError` when the list is present but empty; only the former is caught
by `_convert_simple_event`. The `Option` model cannot distinguish the two,
so a present-but-empty list is also modelled as absence; no claim exercises
that corner. -/
def default_simple_event_to_pitch (simple_event : SimpleEvent) : Option WesternPitch :=
  (simple_event.pitch_or_pitches).bind List.head?

/-- Default accessor `lambda simple_event: simple_event.volume`. -/
def default_simple_event_to_volume (simple_event : SimpleEvent) : Option DirectVolume :=
  simple_event.volume

/-- Default accessor `lambda simple_event: simple_event.vowel`. -/
def default_simple_event_to_vowel (simple_event : SimpleEvent) : Option String :=
  simple_event.vowel

/-- Default accessor `lambda simple_event: simple_event.consonants`. -/
def default_simple_event_to_consonants (simple_event : SimpleEvent) : Option (List String) :=
  simple_event.consonants

/-- An `IsisScoreConverter` with every constructor default of the source:
default accessors, tempo 60, transposition 0, no sentence loudness and
5 events per line. -/
def IsisScoreConverter.mk_default (path : String) : IsisScoreConverter :=
  { path := path
    simple_event_to_pitch := default_simple_event_to_pitch
    simple_event_to_volume := default_simple_event_to_volume
    simple_event_to_vowel := default_simple_event_to_vowel
    simple_event_to_consonants := default_simple_event_to_consonants
    tempo := 60
    global_transposition := 0
    default_sentence_loudness := none
    n_events_per_line := 5 }

/-- Loop body of `_make_key_from_extracted_data_per_event`: starting from
`objects_per_line = [[]]`, each event extends the last line with `key`
applied to its extracted data, and whenever `nth_event % n == 0` a fresh
empty line is appended. The accumulator `current` is the line being built;
finished lines are emitted in order. -/
def objects_per_line_loop (n : Nat) (key : ExtractedData → List String) :
    Nat → List ExtractedData → List String → List (List String)
  | _, [], current => [current]
  | nth_event, extracted_data :: rest, current =>
    let extended := current ++ key extracted_data
    if nth_event % n = 0 then
      extended :: objects_per_line_loop n key (nth_event + 1) rest []
    else
      objects_per_line_loop n key (nth_event + 1) rest extended

/-- The non-empty wrapped line groups of a field: the source filters with
`[", ".join(line) for line in objects_per_line if line]`, dropping empty
lines before joining. -/
def wrapped_line_groups (n : Nat) (extracted_data_per_event : List ExtractedData)
    (key : ExtractedData → List String) : List (List String) :=
  (objects_per_line_loop n key 0 extracted_data_per_event []).filter
    (fun line => !line.isEmpty)

/-- `IsisScoreConverter._make_key_from_extracted_data_per_event`: renders one
labeled, comma-joined, line-wrapped block. -/
def IsisScoreConverter._make_key_from_extracted_data_per_event
    (c : IsisScoreConverter) (key_name : String)
    (extracted_data_per_event : List ExtractedData)
    (key : ExtractedData → List String) : String :=
  let join_string := ",\n" ++ String.mk (List.replicate (key_name.length + 2) ' ')
  let objects := String.intercalate join_string
    ((wrapped_line_groups c.n_events_per_line extracted_data_per_event key).map
      (String.intercalate ", "))
  key_name ++ ": " ++ objects

/-- Key used for the `xsampa` field: consonants followed by the vowel. -/
def xsampa_key (extracted_data : ExtractedData) : List String :=
  extracted_data.consonants ++ [extracted_data.vowel]

/-- Key used for the `midiNotes` field: one item per event, the MIDI pitch
number as text. -/
def midi_notes_key (extracted_data : ExtractedData) : List String :=
  [toString extracted_data.pitch.midi_pitch_number]

/-- Key used for the `rhythm` field: one item per event, the duration as
text. -/
def rhythm_key (extracted_data : ExtractedData) : List String :=
  [toString extracted_data.duration]

/-- Key used for the `loud_accents` field: one item per event, the volume
amplitude as text. -/
def loud_accents_key (extracted_data : ExtractedData) : List String :=
  [toString extracted_data.volume.amplitude]

/-- `_make_lyrics_section_from_extracted_data_per_event`. -/
def IsisScoreConverter._make_lyrics_section (c : IsisScoreConverter)
    (extracted_data_per_event : List ExtractedData) : String :=
  "[lyrics]\n" ++
    c._make_key_from_extracted_data_per_event "xsampa" extracted_data_per_event xsampa_key

/-- `_make_score_section_from_extracted_data_per_event`. -/
def IsisScoreConverter._make_score_section (c : IsisScoreConverter)
    (extracted_data_per_event : List ExtractedData) : String :=
  let midi_notes :=
    c._make_key_from_extracted_data_per_event "midiNotes" extracted_data_per_event midi_notes_key
  let rhythm :=
    c._make_key_from_extracted_data_per_event "rhythm" extracted_data_per_event rhythm_key
  let loud_accents :=
    c._make_key_from_extracted_data_per_event "loud_accents" extracted_data_per_event
      loud_accents_key
  "[score]\n" ++ midi_notes ++ "\nglobalTransposition: " ++
    toString c.global_transposition ++ "\n" ++ rhythm ++ "\n" ++ loud_accents ++
    "\ntempo: " ++ toString c.tempo

/-- The fixed default record substituted for an event on attribute absence:
no consonants, silent vowel, lowest-octave reference pitch, zero-amplitude
volume, with the duration taken from the event. -/
def default_extracted_data (duration : ℚ) : ExtractedData :=
  { duration := duration
    consonants := []
    vowel := "_"
    pitch := { pitch_class_name := "c", octave := -1 }
    volume := { amplitude := 0 } }

/-- `IsisScoreConverter._convert_simple_event`: runs the extraction
functions in their stored order (consonants, vowel, pitch, volume); if any
of them raises `AttributeError` (returns `none`), the entire event becomes
the fixed default record; otherwise the extracted 5-tuple is returned. The
result is the 1-tuple the source returns. The absolute entry delay is
accepted and ignored, as in the source. -/
def IsisScoreConverter._convert_simple_event (c : IsisScoreConverter)
    (simple_event_to_convert : SimpleEvent) (absolute_entry_delay : ℚ) :
    List ExtractedData :=
  let duration := simple_event_to_convert.duration
  match c.simple_event_to_consonants simple_event_to_convert with
  | none => [default_extracted_data duration]
  | some consonants =>
    match c.simple_event_to_vowel simple_event_to_convert with
    | none => [default_extracted_data duration]
    | some vowel =>
      match c.simple_event_to_pitch simple_event_to_convert with
      | none => [default_extracted_data duration]
      | some pitch =>
        match c.simple_event_to_volume simple_event_to_convert with
        | none => [default_extracted_data duration]
        | some volume =>
          [{ duration := duration
             consonants := consonants
             vowel := vowel
             pitch := pitch
             volume := volume }]

/-- Error message of `_convert_simultaneous_event`. -/
def simultaneous_event_error_message : String :=
  "Cant convert instance of SimultaneousEvent to ISiS Score. ISiS is only a" ++
    " monophonic synthesizer and cant read multiple simultaneous voices!"

/-- Modelled from the spec: the traversal `EventConverter._convert_sequential_event`
of the abstract converter base class is not part of the source excerpt; per
the spec it walks the ordered container in time order, accumulating the
absolute entry delay by each duration, and concatenates the per-leaf
results. -/
def IsisScoreConverter._convert_sequential_event (c : IsisScoreConverter) :
    List SimpleEvent → ℚ → List ExtractedData
  | [], _ => []
  | e :: rest, absolute_entry_delay =>
    c._convert_simple_event e absolute_entry_delay ++
      c._convert_sequential_event rest (absolute_entry_delay + e.duration)

/-- Modelled from the spec: the dispatch `EventConverter._convert_event` of
the abstract converter base class is not part of the source excerpt; per
the spec it dispatches on the event shape: leaf events go to
`_convert_simple_event`, sequential containers to
`_convert_sequential_event`, and simultaneous containers to
`_convert_simultaneous_event`, which fails fast with the
unsupported-operation error before any flattening. -/
def IsisScoreConverter._convert_event (c : IsisScoreConverter) (event : Event)
    (absolute_entry_delay : ℚ) : Except String (List ExtractedData) :=
  match event with
  | Event.simple e => Except.ok (c._convert_simple_event e absolute_entry_delay)
  | Event.sequential es => Except.ok (c._convert_sequential_event es absolute_entry_delay)
  | Event.simultaneous _ => Except.error simultaneous_event_error_message

/-- `IsisScoreConverter.convert`: converts the event (which raises on a
simultaneous container), then builds the lyrics and score sections and
writes them to `self.path`. The write only happens after `_convert_event`
has succeeded, as in the source, so an error leaves the filesystem
untouched. -/
def IsisScoreConverter.convert (c : IsisScoreConverter) (event_to_convert : Event)
    (fs : FileSystem) : Except String FileSystem :=
  match c._convert_event event_to_convert 0 with
  | Except.error message => Except.error message
  | Except.ok extracted_data_per_event =>
    let lyrics_section := c._make_lyrics_section extracted_data_per_event
    let score_section := c._make_score_section extracted_data_per_event
    Except.ok ((c.path, lyrics_section ++ "\n\n" ++ score_section) :: fs)

/-- `IsisConverter.__init__` (isis.py): stores flags, output path, the
score converter and `remove_score_file`. These four are the only
attributes the constructor sets on the object. -/
structure IsisConverter where
  flags : List String
  path : String
  isis_score_converter : IsisScoreConverter
  remove_score_file : Bool

/-- Attribute lookup `self.csound_score_converter` inside
`IsisConverter.convert`: the class never sets an attribute of that name
(the constructor sets `isis_score_converter`), so the lookup always raises
`AttributeError`, modelled as `none`. -/
def IsisConverter.csound_score_converter (c : IsisConverter) :
    Option IsisScoreConverter :=
  none

/-- Error message of the `AttributeError` raised by the
`self.csound_score_converter` lookup. -/
def attribute_error_csound_message : String :=
  "AttributeError: IsisConverter object has no attribute csound_score_converter"

/-- The command line `isis.sh -m <score_path> -o <output_path>` with each
flag appended, exactly as built by `IsisConverter.convert`. -/
def IsisConverter.command (c : IsisConverter) : String :=
  c.flags.foldl (fun command flag => command ++ " " ++ flag ++ " ")
    ("isis.sh -m " ++ c.isis_score_converter.path ++ " -o " ++ c.path)

/-- Remove a path from the filesystem (`os.remove`). -/
def remove_path (path : String) (fs : FileSystem) : FileSystem :=
  List.filter (fun entry => entry.fst != path) fs

/-- `IsisConverter.convert`: renders the score file via the score
converter, invokes the external renderer with `os.system` (a
fire-and-forget subprocess with no modelled filesystem effect and no
exit-code check), and then, when `remove_score_file` is set, evaluates
`os.remove(self.csound_score_converter.path)` — whose attribute lookup
raises `AttributeError` because the object only has
`isis_score_converter`. -/
def IsisConverter.convert (c : IsisConverter) (event_to_convert : Event)
    (fs : FileSystem) : Except String FileSystem :=
  match c.isis_score_converter.convert event_to_convert fs with
  | Except.error message => Except.error message
  | Except.ok fs_after_score =>
    if c.remove_score_file then
      match c.csound_score_converter with
      | none => Except.error attribute_error_csound_message
      | some score_converter => Except.ok (remove_path score_converter.path fs_after_score)
    else
      Except.ok fs_after_score

/-- Modelled from the spec: the loudness converter source
(`mutwo.converters.symmetrical.loudness.LoudnessToAmplitudeConverter`) is
not part of the excerpt — only its tests are. `_sone_to_phon` per the spec:
for `loudness_in_sone >= 1` the Stevens approximation
`40 + 10 * log2 loudness`, otherwise the low-loudness branch
`40 * (loudness + 0.0005) ^ 0.35`. The formulas are corroborated by the
test values 40, 50 and 31.39434452534506 in loudness_tests.py. -/
noncomputable def sone_to_phon (loudness_in_sone : ℝ) : ℝ :=
  if 1 ≤ loudness_in_sone then 40 + 10 * Real.logb 2 loudness_in_sone
  else 40 * (loudness_in_sone + 0.0005) ^ (0.35 : ℝ)

/-- Modelled from the spec: `LoudnessToAmplitudeConverter.convert` maps the
configured loudness through `_sone_to_phon`, then through an equal-loudness
contour to a sound-pressure level, then to a linear amplitude via the
`10 ^ (dB / 20)` relation scaled by a positive normalization constant. The
contour model itself is an open question in the spec, but at the 1 kHz
reference frequency the contour is the identity — by the spec glossary,
phon is referenced to a 1 kHz tone's sound-pressure level — so at that
frequency `convert` is fully determined up to the normalization constant,
which is order-irrelevant and taken as 1 here. -/
noncomputable def convert_at_reference_frequency (loudness_in_sone : ℝ) : ℝ :=
  (10 : ℝ) ^ (sone_to_phon loudness_in_sone / 20)

/-! Concrete data used by the evaluation theorems and witnesses. -/

/-- A fully populated leaf event (all four accessed attributes present). -/
def test_event_1 : SimpleEvent :=
  { duration := 1/2
    pitch_or_pitches := some [{ pitch_class_name := "c", octave := 4 }]
    volume := some { amplitude := 1/2 }
    vowel := some "a"
    consonants := some [] }

/-- A second fully populated leaf event. -/
def test_event_2 : SimpleEvent :=
  { duration := 1/2
    pitch_or_pitches := some [{ pitch_class_name := "f", octave := 4 }]
    volume := some { amplitude := 1/2 }
    vowel := some "o"
    consonants := some [] }

/-- The extracted data of the two-event sequence under the default
converter: every accessor succeeds on both events. -/
def two_event_extracted_data : List ExtractedData :=
  (IsisScoreConverter.mk_default "my_singing_score")._convert_sequential_event
    [test_event_1, test_event_2] 0

/-- An `IsisConverter` constructed with `remove_score_file = True`. -/
def test_isis_converter : IsisConverter :=
  { flags := []
    path := "output.wav"
    isis_score_converter := IsisScoreConverter.mk_default "my_singing_score"
    remove_score_file := true }

/-! Theorems settling the claims. -/

/-- C1: refuted as stated — with the default width 5, a sequence of N = 2
leaf events on which all four accessors succeed is wrapped into 2 line
groups for the one-item-per-event `rhythm` field, not `ceil(2 / 5) = 1`:
the wrap check `nth_event % n_events_per_line == 0` fires right after the
first event, so the first group holds a single event. The second half of
the claim does hold here: the total item count across the groups is N = 2. -/
theorem grouping_deviates_from_ceil :
    (wrapped_line_groups (IsisScoreConverter.mk_default "my_singing_score").n_events_per_line
        two_event_extracted_data rhythm_key).length = 2 ∧
    ((wrapped_line_groups (IsisScoreConverter.mk_default "my_singing_score").n_events_per_line
        two_event_extracted_data rhythm_key).map List.length).sum = 2 ∧
    (2 + 5 - 1) / 5 = 1 := by
  refine ⟨by decide, by decide, by decide⟩

/-- C2: whenever at least one of the four extraction functions signals
attribute absence on a simple event, `_convert_simple_event` returns the
1-tuple holding the fixed default record — empty consonants, vowel `"_"`,
`WesternPitch "c" (-1)` and `DirectVolume 0` — with all four fields
defaulted together, and no error escapes (the function is total). -/
theorem convert_simple_event_defaults_on_attribute_absence
    (c : IsisScoreConverter) (e : SimpleEvent) (absolute_entry_delay : ℚ)
    (h : c.simple_event_to_consonants e = none ∨ c.simple_event_to_vowel e = none ∨
      c.simple_event_to_pitch e = none ∨ c.simple_event_to_volume e = none) :
    c._convert_simple_event e absolute_entry_delay =
      [{ duration := e.duration
         consonants := []
         vowel := "_"
         pitch := { pitch_class_name := "c", octave := -1 }
         volume := { amplitude := 0 } }] := by
  unfold IsisScoreConverter._convert_simple_event
  cases hc : c.simple_event_to_consonants e with
  | none => simp [default_extracted_data]
  | some consonants =>
    cases hv : c.simple_event_to_vowel e with
    | none => simp [default_extracted_data]
    | some vowel =>
      cases hp : c.simple_event_to_pitch e with
      | none => simp [default_extracted_data]
      | some pitch =>
        cases hvol : c.simple_event_to_volume e with
        | none => simp [default_extracted_data]
        | some volume =>
          rcases h with h | h | h | h <;>
            first
            | exact absurd h (by simp [hc])
            | exact absurd h (by simp [hv])
            | exact absurd h (by simp [hp])
            | exact absurd h (by simp [hvol])

/-- C2 witness: the default converter on a bare `SimpleEvent(1)` (its vowel
and every other musical attribute absent) produces exactly the default
record. -/
theorem convert_simple_event_defaults_witness :
    (IsisScoreConverter.mk_default "my_singing_score")._convert_simple_event
        (SimpleEvent.new 1) 0 =
      [{ duration := (SimpleEvent.new 1).duration
         consonants := []
         vowel := "_"
         pitch := { pitch_class_name := "c", octave := -1 }
         volume := { amplitude := 0 } }] :=
  convert_simple_event_defaults_on_attribute_absence
    (IsisScoreConverter.mk_default "my_singing_score") (SimpleEvent.new 1) 0
    (Or.inl (by decide))

/-- C3: handing a simultaneous container to `IsisScoreConverter.convert`
raises the unsupported-operation error immediately — the dispatch rejects
it before any flattening — and the conversion never reaches the file
write, so for every starting filesystem the result is the error and no
updated filesystem is produced. -/
theorem convert_simultaneous_event_fails_fast (c : IsisScoreConverter)
    (es : List Event) (fs : FileSystem) :
    c.convert (Event.simultaneous es) fs =
      Except.error simultaneous_event_error_message :=
  rfl

/-- C7: refuted by the code — on an `IsisConverter` built with
`remove_score_file = True`, `convert` evaluates
`os.remove(self.csound_score_converter.path)`, but the object has no
attribute `csound_score_converter` (the constructor sets
`isis_score_converter`), so instead of deleting the score file and
completing without error the call raises `AttributeError`. -/
theorem isis_converter_remove_score_file_raises :
    test_isis_converter.convert (Event.simple (SimpleEvent.new 1)) [] =
      Except.error attribute_error_csound_message :=
  rfl

/-- C8: `get_parameter` always returns a 1-tuple and never raises: when the
attribute exists its value is wrapped, and when it does not the tuple holds
the absent-value marker `None`. -/
theorem get_parameter_never_raises (e : SimpleEvent) (parameter_name : String) :
    (e.get_parameter parameter_name).length = 1 ∧
    (∀ v, e.getattr parameter_name = some v →
      e.get_parameter parameter_name = [some v]) ∧
    (e.getattr parameter_name = none → e.get_parameter parameter_name = [none]) := by
  unfold SimpleEvent.get_parameter
  cases h : e.getattr parameter_name with
  | none => exact ⟨rfl, fun v hv => by simp at hv, fun _ => rfl⟩
  | some value =>
    exact ⟨rfl, fun v hv => by cases hv; rfl, fun hnone => by simp at hnone⟩

/-- C8 witness: on a bare `SimpleEvent(1)`, asking for the present
`duration` yields its wrapped value and asking for the absent `vowel`
yields the 1-tuple holding the marker. -/
theorem get_parameter_never_raises_witness :
    (SimpleEvent.new 1).get_parameter "vowel" = [none] ∧
    ((SimpleEvent.new 1).get_parameter "duration").length = 1 :=
  ⟨(get_parameter_never_raises (SimpleEvent.new 1) "vowel").2.2 (by decide),
    (get_parameter_never_raises (SimpleEvent.new 1) "duration").1⟩

/-- C9: `_convert_simple_event` always returns a 1-tuple whose record
carries the event's own duration, both on the success path and on the
all-or-nothing default path. -/
theorem convert_simple_event_preserves_duration (c : IsisScoreConverter)
    (e : SimpleEvent) (absolute_entry_delay : ℚ) :
    (c._convert_simple_event e absolute_entry_delay).map ExtractedData.duration =
      [e.duration] := by
  unfold IsisScoreConverter._convert_simple_event
  cases c.simple_event_to_consonants e with
  | none => rfl
  | some consonants =>
    cases c.simple_event_to_vowel e with
    | none => rfl
    | some vowel =>
      cases c.simple_event_to_pitch e with
      | none => rfl
      | some pitch =>
        cases c.simple_event_to_volume e with
        | none => rfl
        | some volume => rfl

/-- C10: constructing `SimpleEvent(d)` or assigning the duration property
stores exactly `d`; reading the property returns `d` and
`get_parameter "duration"` returns the 1-tuple holding `d`. -/
theorem duration_round_trip (e : SimpleEvent) (d : ℚ) :
    (SimpleEvent.new d).duration = d ∧
    (e.set_duration d).duration = d ∧
    (SimpleEvent.new d).get_parameter "duration" = [some (AttrValue.num d)] ∧
    (e.set_duration d).get_parameter "duration" = [some (AttrValue.num d)] :=
  ⟨rfl, rfl, rfl, rfl⟩

/-! Bounds on the low-loudness power `x ^ 0.35`, obtained by raising to the
20th power: since `0.35 = 7 / 20`, `(x ^ 0.35) ^ 20 = x ^ 7`, and the
resulting rational inequalities are decided exactly. -/

/-- Raising the low-loudness power to the 20th power gives `x ^ 7`. -/
lemma rpow_035_pow_twenty (x : ℝ) (hx : 0 ≤ x) :
    (x ^ (0.35 : ℝ)) ^ (20 : ℕ) = x ^ (7 : ℕ) := by
  have h720 : (0.35 : ℝ) * ((20 : ℕ) : ℝ) = ((7 : ℕ) : ℝ) := by norm_num
  rw [← Real.rpow_natCast (x ^ (0.35 : ℝ)) 20, ← Real.rpow_mul hx, h720,
    Real.rpow_natCast]

/-- Rational sandwich for `x ^ 0.35` via 20th powers. -/
lemma rpow_035_bounds (x l u : ℝ) (hx : 0 ≤ x) (hu : 0 ≤ u)
    (h1 : l ^ (20 : ℕ) < x ^ (7 : ℕ)) (h2 : x ^ (7 : ℕ) < u ^ (20 : ℕ)) :
    l < x ^ (0.35 : ℝ) ∧ x ^ (0.35 : ℝ) < u := by
  have key := rpow_035_pow_twenty x hx
  constructor
  · exact lt_of_pow_lt_pow_left₀ 20 (Real.rpow_nonneg hx _) (by rw [key]; exact h1)
  · exact lt_of_pow_lt_pow_left₀ 20 hu (by rw [← key] at h2; exact h2)

/-- C4: `sone_to_phon` computes the piecewise formula — the Stevens branch
`40 + 10 * log2 s` for `s ≥ 1` and the low-loudness branch
`40 * (s + 0.0005) ^ 0.35` for `s < 1`; in particular it is exactly 40 at
loudness 1 and exactly 50 at loudness 2, and at loudness 0.5 it is within
`10 ^ (-6)` of 31.394344525. -/
theorem sone_to_phon_piecewise :
    (∀ s : ℝ, 1 ≤ s → sone_to_phon s = 40 + 10 * Real.logb 2 s) ∧
    (∀ s : ℝ, s < 1 → sone_to_phon s = 40 * (s + 0.0005) ^ (0.35 : ℝ)) ∧
    sone_to_phon 1 = 40 ∧
    sone_to_phon 2 = 50 ∧
    |sone_to_phon (1 / 2) - 31.394344525| < 1 / 1000000 := by
  refine ⟨fun s hs => if_pos hs, fun s hs => if_neg (not_le.mpr hs), ?_, ?_, ?_⟩
  · rw [sone_to_phon, if_pos le_rfl, Real.logb_one]
    norm_num
  · rw [sone_to_phon, if_pos (by norm_num), Real.logb_self_eq_one (by norm_num)]
    norm_num
  · have hval : sone_to_phon (1 / 2) = 40 * ((1001 / 2000 : ℝ)) ^ (0.35 : ℝ) := by
      rw [sone_to_phon, if_neg (by norm_num)]
      norm_num
    have hbounds :=
      rpow_035_bounds (1001 / 2000) (78485859 / 100000000) (78485863 / 100000000)
        (by norm_num) (by norm_num) (by norm_num) (by norm_num)
    rw [hval, abs_lt]
    constructor <;> nlinarith [hbounds.1, hbounds.2]

/-- C4 witness: the Stevens branch applied at loudness 2. -/
theorem sone_to_phon_piecewise_witness :
    sone_to_phon 2 = 40 + 10 * Real.logb 2 2 :=
  sone_to_phon_piecewise.1 2 (by norm_num)

/-- C6 counterexample: the two branches of `sone_to_phon` do not agree at
the loudness = 1 boundary within floating tolerance — the low branch
`40 * (1 + 0.0005) ^ 0.35` exceeds the high branch value
`sone_to_phon 1 = 40` by more than `1 / 200`, four orders of magnitude
above any double-precision tolerance, so the function is not continuous at
1. -/
theorem sone_to_phon_branches_disagree_at_one :
    sone_to_phon 1 = 40 ∧
    1 / 200 < 40 * ((1 : ℝ) + 0.0005) ^ (0.35 : ℝ) - sone_to_phon 1 := by
  have h1 : sone_to_phon 1 = 40 := by
    rw [sone_to_phon, if_pos le_rfl, Real.logb_one]
    norm_num
  have hbase : ((1 : ℝ) + 0.0005) = 2001 / 2000 := by norm_num
  have hbounds :=
    rpow_035_bounds (2001 / 2000) (8001 / 8000) (4001 / 4000)
      (by norm_num) (by norm_num) (by norm_num) (by norm_num)
  refine ⟨h1, ?_⟩
  rw [h1, hbase]
  nlinarith [hbounds.1]

/-- C6 amended: at the loudness = 1 boundary the low branch evaluates to
`40 * 1.0005 ^ 0.35`, strictly between `40 + 1/200` and `40 + 1/100`
(numerically about 40.007), while the high branch gives exactly 40:
`sone_to_phon` has a jump of about 0.007 there and is discontinuous at 1. -/
theorem sone_to_phon_jump_at_one :
    sone_to_phon 1 = 40 ∧
    40 + 1 / 200 < 40 * ((1 : ℝ) + 0.0005) ^ (0.35 : ℝ) ∧
    40 * ((1 : ℝ) + 0.0005) ^ (0.35 : ℝ) < 40 + 1 / 100 := by
  have h1 : sone_to_phon 1 = 40 := by
    rw [sone_to_phon, if_pos le_rfl, Real.logb_one]
    norm_num
  have hbase : ((1 : ℝ) + 0.0005) = 2001 / 2000 := by norm_num
  have hbounds :=
    rpow_035_bounds (2001 / 2000) (8001 / 8000) (4001 / 4000)
      (by norm_num) (by norm_num) (by norm_num) (by norm_num)
  rw [hbase]
  exact ⟨h1, by nlinarith [hbounds.1], by nlinarith [hbounds.2]⟩

/-- C5 counterexample: the converter is not monotonically increasing in
loudness at a fixed frequency — at the 1 kHz reference frequency, the
loudness 0.9999 (strictly less than 1) produces a strictly larger
amplitude than the loudness 1, because the low branch of `sone_to_phon`
evaluates just below the boundary to about 40.0056 phon while loudness 1
gives exactly 40 phon. -/
theorem convert_not_monotone_across_branch_boundary :
    (9999 / 10000 : ℝ) < 1 ∧
    convert_at_reference_frequency 1 < convert_at_reference_frequency (9999 / 10000) := by
  refine ⟨by norm_num, ?_⟩
  have h1 : sone_to_phon 1 = 40 := by
    rw [sone_to_phon, if_pos le_rfl, Real.logb_one]
    norm_num
  have h2 : sone_to_phon (9999 / 10000) = 40 * ((2501 / 2500 : ℝ)) ^ (0.35 : ℝ) := by
    rw [sone_to_phon, if_neg (by norm_num)]
    norm_num
  have ht : 1 < ((2501 / 2500 : ℝ)) ^ (0.35 : ℝ) :=
    (Real.one_lt_rpow_iff_of_pos (by norm_num)).mpr
      (Or.inl ⟨by norm_num, by norm_num⟩)
  have hphon : sone_to_phon 1 < sone_to_phon (9999 / 10000) := by
    rw [h1, h2]
    nlinarith [ht]
  unfold convert_at_reference_frequency
  exact (Real.rpow_lt_rpow_left_iff (by norm_num)).mpr (by linarith)

/-- C5 amended: the converter is monotonically increasing in loudness at
the reference frequency as long as both loudnesses fall in the same branch
of `sone_to_phon` (both at least 1, or both below 1); across the branch
boundary monotonicity fails, as the counterexample at loudness 0.9999
versus 1 shows. -/
theorem convert_monotone_within_branch (a b : ℝ) (h0 : 0 ≤ a) (hab : a < b)
    (hbr : 1 ≤ a ∨ b < 1) :
    convert_at_reference_frequency a < convert_at_reference_frequency b := by
  have hphon : sone_to_phon a < sone_to_phon b := by
    rcases hbr with h1 | h1
    · have hb1 : 1 ≤ b := le_of_lt (lt_of_le_of_lt h1 hab)
      rw [sone_to_phon, sone_to_phon, if_pos h1, if_pos hb1]
      have hlog := Real.logb_lt_logb (b := 2) (by norm_num)
        (lt_of_lt_of_le zero_lt_one h1) hab
      linarith
    · have ha1 : ¬(1 ≤ a) := by linarith
      have hb1 : ¬(1 ≤ b) := by linarith
      rw [sone_to_phon, sone_to_phon, if_neg ha1, if_neg hb1]
      have hpow := Real.rpow_lt_rpow (x := a + 0.0005) (y := b + 0.0005)
        (z := (0.35 : ℝ)) (by linarith) (by linarith) (by norm_num)
      linarith
  unfold convert_at_reference_frequency
  exact (Real.rpow_lt_rpow_left_iff (by norm_num)).mpr (by linarith)

/-- C5 amended witness: loudness 1 versus loudness 2, both in the Stevens
branch. -/
theorem convert_monotone_within_branch_witness :
    convert_at_reference_frequency 1 < convert_at_reference_frequency 2 :=
  convert_monotone_within_branch 1 2 (by norm_num) (by norm_num)
    (Or.inl (by norm_num))

end Mutwo
